import Mathlib

/-!
Shallow embedding of the scrollback/viewport layer of the `tinny-pi` terminal UI:

* `ScrollLayout` (src/unnamed/part_001) — the stateful layout composing a
  scrollable output region with a pinned fixed region;
* `parseMouseEvent` (src/packages/tui/src/mouse.ts) — the SGR mouse decoder;
* `applyStickyHeader` / `findHeaderLineIndex` (src/unnamed/part_003) — the
  sticky-header overlay.

JavaScript numbers are modelled as `Int` (all quantities of interest are
integers; `Number.MAX_SAFE_INTEGER` is `2 ^ 53 - 1`).  JavaScript
`Array.prototype.slice` is modelled by `jsSlice`, including its handling of
negative and out-of-range indices.  Components are records of pure
functions: the optional `renderViewport` capability is an `Option` field,
mirroring the duck-typed `isViewportAware` probe.
-/

namespace TinnyPi

/-- JS `Array.prototype.slice` index resolution: negative indices are
relative to the end, everything is clamped into `[0, len]`. -/
def jsSliceIdx (len : Nat) (i : Int) : Nat :=
  if i < 0 then ((len : Int) + i).toNat else min i.toNat len

/-- JS `arr.slice(start, stop)`: the elements of positions
`[jsSliceIdx start, jsSliceIdx stop)`. -/
def jsSlice (l : List α) (start stop : Int) : List α :=
  (l.take (jsSliceIdx l.length stop)).drop (jsSliceIdx l.length start)

/-- JS one-argument `arr.slice(start)`. -/
def jsSliceFrom (l : List α) (start : Int) : List α :=
  jsSlice l start l.length

/-- `Number.MAX_SAFE_INTEGER`. -/
def MAX_SAFE_INTEGER : Int := 2 ^ 53 - 1

/-- The `viewport` argument of the viewport-aware rendering contract. -/
structure ViewportInfo where
  width : Int
  height : Int
  top : Int
deriving DecidableEq

/-- Result of `renderViewport`: the produced lines plus the content's true
total logical height. -/
structure ViewportRenderResult where
  lines : List String
  contentHeight : Int
deriving DecidableEq

/-- A renderable component (`Component` in src/packages/tui): `render` is
mandatory, the viewport capability is optional.  `renderViewport? = some rv`
models a component for which the `isViewportAware` probe succeeds. -/
structure Component where
  render : Int → List String
  renderViewport? : Option (Int → ViewportInfo → ViewportRenderResult) := none

/-- The spec's ViewportAware contract (§3): `contentHeight` reports the true
total logical row count — it does not depend on the requested window — and at
most `contentHeight` rows are ever produced. -/
def Component.WellFormed (c : Component) : Prop :=
  ∀ rv, c.renderViewport? = some rv →
    (∀ w v w' v', (rv w v).contentHeight = (rv w' v').contentHeight) ∧
    (∀ w v, ((rv w v).lines.length : Int) ≤ (rv w v).contentHeight)

/-- `c` is a capability-free scrollable child whose content rows are
exactly `L`: no viewport capability, full render `L` at every width. -/
def Component.PresentsPlain (c : Component) (L : List String) : Prop :=
  c.renderViewport? = none ∧ ∀ w, c.render w = L

/-- `c` is a viewport-aware scrollable child whose content rows are exactly
`L`: it serves the requested window `[top, top + height)` of `L` (§4.2's
canonical slice semantics, which the capability fallback must match) and
reports the true content height `L.length`. -/
def Component.PresentsSliced (c : Component) (L : List String) : Prop :=
  ∃ rv, c.renderViewport? = some rv ∧ ∀ w v,
    (rv w v).lines = jsSlice L v.top (v.top + v.height) ∧
    (rv w v).contentHeight = (L.length : Int)

/-- A component with no viewport capability that always renders the given
lines (the test-suite's `StaticComponent`). -/
def plainComponent (lines : List String) : Component :=
  { render := fun _ => lines, renderViewport? := none }

/-- A viewport-aware component over fixed content: serves the requested
window `[top, top + height)` of `lines` and reports the true total height. -/
def sliceComponent (lines : List String) : Component :=
  { render := fun _ => lines,
    renderViewport? := some fun _ v =>
      { lines := jsSlice lines v.top (v.top + v.height),
        contentHeight := (lines.length : Int) } }

/-- Constructor options of `ScrollLayout` (src/unnamed/part_001). -/
structure ScrollLayoutOptions where
  scrollEnabled : Option Bool := none
  followOutput : Option Bool := none

/-- The mutable scalar state of `ScrollLayout` (src/unnamed/part_001).  The
two child components (`scrollable`, `fixed`) are constructor-supplied object
references whose rendered content may change between frames, so they are
passed explicitly to each rendering operation instead of being frozen into
the state. -/
structure ScrollLayout where
  scrollEnabled : Bool
  followOutput : Bool
  scrollTop : Int := 0
  lastAvailableHeight : Int := 0
  lastContentHeight : Int := 0
  lastViewportHeight : Int := 0
deriving DecidableEq

namespace ScrollLayout

/-- The constructor: `scrollEnabled = options.scrollEnabled ?? true`,
`followOutput = options.followOutput ?? true`, everything else zero. -/
def create (options : ScrollLayoutOptions) : ScrollLayout :=
  { scrollEnabled := options.scrollEnabled.getD true
    followOutput := options.followOutput.getD true }

/-- `setScrollEnabled`: toggling off resets the offset and re-enters follow
mode. -/
def setScrollEnabled (s : ScrollLayout) (enabled : Bool) : ScrollLayout :=
  if enabled then { s with scrollEnabled := true }
  else { s with scrollEnabled := false, scrollTop := 0, followOutput := true }

/-- `getMaxScrollTop`: `max(0, lastContentHeight - lastAvailableHeight)`. -/
def getMaxScrollTop (s : ScrollLayout) : Int :=
  max 0 (s.lastContentHeight - s.lastAvailableHeight)

/-- Private `setScrollTop`: clamp into `[0, maxScrollTop]` and recompute
`followOutput`. -/
def setScrollTop (s : ScrollLayout) (top : Int) : ScrollLayout :=
  let maxScrollTop := s.getMaxScrollTop
  let clamped := max 0 (min top maxScrollTop)
  { s with scrollTop := clamped, followOutput := decide (clamped ≥ maxScrollTop) }

/-- `scrollBy`: no-op when disabled, else `setScrollTop(scrollTop + lines)`. -/
def scrollBy (s : ScrollLayout) (lines : Int) : ScrollLayout :=
  if s.scrollEnabled then s.setScrollTop (s.scrollTop + lines) else s

/-- `scrollToTop`. -/
def scrollToTop (s : ScrollLayout) : ScrollLayout :=
  if s.scrollEnabled then ({ s with followOutput := false }).setScrollTop 0 else s

/-- `scrollToBottom`. -/
def scrollToBottom (s : ScrollLayout) : ScrollLayout :=
  if s.scrollEnabled then
    { s with followOutput := true, scrollTop := s.getMaxScrollTop }
  else
    { s with scrollTop := 0, followOutput := true }

/-- `isAtBottom`. -/
def isAtBottom (s : ScrollLayout) : Bool :=
  decide (s.scrollTop ≥ s.getMaxScrollTop)

/-- `ScrollLayout.renderViewport` (src/unnamed/part_001 lines 86-164),
translated statement by statement.  Returns the updated state together with
the `ViewportRenderResult`. -/
def renderViewport (s : ScrollLayout) (scrollable fixed : Component)
    (width : Int) (viewport : ViewportInfo) : ScrollLayout × ViewportRenderResult :=
  let viewportHeight : Int := max 0 viewport.height
  let fullFixedLines := fixed.render width
  let fixedHeight : Int := fullFixedLines.length
  let fixedLines :=
    if s.scrollEnabled ∧ (fullFixedLines.length : Int) > viewportHeight then
      jsSliceFrom fullFixedLines ((fullFixedLines.length : Int) - viewportHeight)
    else fullFixedLines
  let fixedVisibleHeight : Int := fixedLines.length
  let availableHeight : Int := max 0 (viewportHeight - fixedVisibleHeight)
  let renderHeight : Int := if s.scrollEnabled then availableHeight else viewport.height
  let renderTop : Int := if s.scrollEnabled then s.scrollTop else viewport.top
  let first : List String × Int :=
    match scrollable.renderViewport? with
    | some rv =>
      let result := rv width ⟨width, renderHeight, renderTop⟩
      (result.lines, max result.contentHeight (result.lines.length : Int))
    | none =>
      let ls := scrollable.render width
      (ls, (ls.length : Int))
  let maxScrollTop : Int := max 0 (first.2 - availableHeight)
  let nextScrollTop : Int :=
    if s.scrollEnabled then
      if s.followOutput then maxScrollTop else min s.scrollTop maxScrollTop
    else 0
  let afterClamp : Int × List String × Int :=
    if s.scrollEnabled ∧ nextScrollTop ≠ s.scrollTop then
      match scrollable.renderViewport? with
      | some rv =>
        let rerendered := rv width ⟨width, availableHeight, nextScrollTop⟩
        (nextScrollTop, rerendered.lines,
          max rerendered.contentHeight (rerendered.lines.length : Int))
      | none => (nextScrollTop, first.1, first.2)
    else if s.scrollEnabled then (nextScrollTop, first.1, first.2)
    else (s.scrollTop, first.1, first.2)
  let scrollTop1 := afterClamp.1
  let outputLines1 := afterClamp.2.1
  let outputContentHeight1 := afterClamp.2.2
  let outputLines2 :=
    if s.scrollEnabled then
      let sliced :=
        if (outputLines1.length : Int) ≥ outputContentHeight1 then
          jsSlice outputLines1 scrollTop1 (scrollTop1 + availableHeight)
        else outputLines1
      if (sliced.length : Int) < availableHeight then
        sliced ++ List.replicate (availableHeight - (sliced.length : Int)).toNat ""
      else sliced
    else outputLines1
  let followOutput1 :=
    if s.scrollEnabled then decide (scrollTop1 ≥ maxScrollTop) else true
  let s' : ScrollLayout :=
    { s with
      scrollTop := scrollTop1
      lastAvailableHeight := availableHeight
      lastContentHeight := outputContentHeight1
      lastViewportHeight := viewportHeight
      followOutput := followOutput1 }
  let lines :=
    if s.scrollEnabled then outputLines2 ++ fixedLines else outputLines2 ++ fullFixedLines
  (s', ⟨lines, outputContentHeight1 + fixedHeight⟩)

/-- `ScrollLayout.render` (src/unnamed/part_001 lines 166-176). -/
def render (s : ScrollLayout) (scrollable fixed : Component) (width : Int) :
    ScrollLayout × List String :=
  if s.lastViewportHeight > 0 then
    let r := s.renderViewport scrollable fixed width ⟨width, s.lastViewportHeight, 0⟩
    (r.1, r.2.lines)
  else
    let scrollableLines :=
      match scrollable.renderViewport? with
      | some rv => (rv width ⟨width, MAX_SAFE_INTEGER, 0⟩).lines
      | none => scrollable.render width
    (s, scrollableLines ++ fixed.render width)

end ScrollLayout

/-! ## Mouse decoder (src/packages/tui/src/mouse.ts)

The decoder matches the SGR regex `^\x1b\[<(\d+);(\d+);(\d+)([mM])$` and
parses the three digit groups with `Number.parseInt`.  Digit groups are
parsed exactly into `Nat` (faithful to JS for all values below `2 ^ 53`,
where `parseInt` is exact; JS bitwise operators only inspect the low 32
bits, which coincide with the `Nat` bits for the masks `3/4/8/16/32/64`
used here).  The `Number.isFinite` guard of the source can only fail for
digit groups so long that `parseInt` overflows to infinity, which has no
`Nat` counterpart, so it is always true in this model. -/

/-- Modifier keys of a mouse event. -/
structure MouseModifiers where
  shift : Bool
  alt : Bool
  ctrl : Bool
deriving DecidableEq

/-- Mouse button identity. -/
inductive MouseButton where
  | left
  | middle
  | right
deriving DecidableEq

/-- Button event action. -/
inductive MouseAction where
  | press
  | release
  | drag
deriving DecidableEq

/-- The tagged `MouseEvent` union: scroll or button. -/
inductive MouseEvent where
  | scroll (delta : Int) (x y : Nat) (modifiers : MouseModifiers)
  | button (action : MouseAction) (button : MouseButton) (x y : Nat)
      (modifiers : MouseModifiers)
deriving DecidableEq

/-- Value of a digit string, most significant first. -/
def digitsToNat (ds : List Char) : Nat :=
  ds.foldl (fun acc c => acc * 10 + (c.toNat - '0'.toNat)) 0

/-- Read a maximal nonempty digit group (`\d+`) from the front. -/
def readDigits (cs : List Char) : Option (Nat × List Char) :=
  let ds := cs.takeWhile fun c => c.isDigit
  if ds.isEmpty then none
  else some (digitsToNat ds, cs.dropWhile fun c => c.isDigit)

/-- Match of the anchored regex `^\x1b\[<(\d+);(\d+);(\d+)([mM])$`:
the three numeric fields plus the trailing letter. -/
def matchSGR (cs : List Char) : Option (Nat × Nat × Nat × Char) :=
  match cs with
  | '\x1b' :: '[' :: '<' :: rest =>
    match readDigits rest with
    | none => none
    | some (code, r1) =>
      match r1 with
      | ';' :: r2 =>
        match readDigits r2 with
        | none => none
        | some (x, r3) =>
          match r3 with
          | ';' :: r4 =>
            match readDigits r4 with
            | none => none
            | some (y, r5) =>
              match r5 with
              | [c] => if c = 'M' ∨ c = 'm' then some (code, x, y, c) else none
              | _ => none
          | _ => none
      | _ => none
  | _ => none

/-- `parseMouseEvent` (src/packages/tui/src/mouse.ts lines 31-95). -/
def parseMouseEvent (data : String) : Option MouseEvent :=
  match matchSGR data.data with
  | none => none
  | some (code, x, y, c) =>
    let col := x - 1
    let row := y - 1
    let modifiers : MouseModifiers :=
      ⟨code &&& 4 ≠ 0, code &&& 8 ≠ 0, code &&& 16 ≠ 0⟩
    if code &&& 64 ≠ 0 then
      let wheel := code &&& 3
      if wheel = 0 then some (.scroll (-1) col row modifiers)
      else if wheel = 1 then some (.scroll 1 col row modifiers)
      else none
    else
      let buttonCode := code &&& 3
      if buttonCode = 0 ∨ buttonCode = 1 ∨ buttonCode = 2 then
        let button : MouseButton :=
          if buttonCode = 0 then .left else if buttonCode = 1 then .middle else .right
        let action : MouseAction :=
          if code &&& 32 ≠ 0 then .drag else if c = 'm' then .release else .press
        some (.button action button col row modifiers)
      else none

/-- An input is decodable exactly when it matches the SGR regex and its
`code` field selects a defined wheel direction or button. -/
def sgrWellFormed (data : String) : Bool :=
  match matchSGR data.data with
  | none => false
  | some (code, _, _, _) =>
    if code &&& 64 ≠ 0 then code &&& 3 = 0 ∨ code &&& 3 = 1
    else code &&& 3 = 0 ∨ code &&& 3 = 1 ∨ code &&& 3 = 2

/-! ## Sticky header overlay (src/unnamed/part_003)

`applyStickyHeader` may copy `lines[headerIndex]` into the row at the
clamped viewport top.  The TS `headerIndex` option is an arbitrary number;
a JS read `lines[i]` outside `[0, lines.length)` yields `undefined`, which
the assignment then stores into the output row.  The output row type is
therefore `Option String`, with `none` standing for `undefined`; input rows
are real strings and appear as `some`. -/

/-- Options record of `applyStickyHeader`. -/
structure StickyHeaderOptions where
  headerIndex : Option Int := none
  scanLimit : Option Int := none
  viewportHeight : Option Int := none

/-- JS element read `l[i]`: `undefined` (here `none`) outside the range. -/
def jsElem (l : List String) (i : Int) : Option String :=
  if h : 0 ≤ i ∧ i < (l.length : Int) then
    some (l.get ⟨i.toNat, by omega⟩)
  else none

/-- Model of the external `strip-ansi` dependency as a two-state scanner:
in CSI-skipping state (`inCsi = true`) drop bytes up to and including the
final byte (`0x40-0x7e`); otherwise `ESC [` enters the skipping state,
stray `ESC` bytes are dropped, and all other characters are kept.
Identity on strings containing no `\x1b` — the claims evaluate it only on
escape-free strings. -/
def stripAnsiAux : Bool → List Char → List Char
  | _, [] => []
  | true, c :: rest =>
    if 0x40 ≤ c.toNat ∧ c.toNat ≤ 0x7e then stripAnsiAux false rest
    else stripAnsiAux true rest
  | false, '\x1b' :: '[' :: rest => stripAnsiAux true rest
  | false, '\x1b' :: rest => stripAnsiAux false rest
  | false, c :: rest => c :: stripAnsiAux false rest

/-- String version of the `strip-ansi` model. -/
def stripAnsi (s : String) : String :=
  ⟨stripAnsiAux false s.data⟩

/-- Model of JS `String.prototype.trim`: strip whitespace from both
ends. -/
def jsTrim (s : String) : String :=
  ⟨((s.data.dropWhile Char.isWhitespace).reverse.dropWhile Char.isWhitespace).reverse⟩

/-- `findHeaderLineIndex` (src/unnamed/part_003 lines 25-32): index of the
first line whose ANSI-stripped trimmed text is nonempty, among the first
`min(lines.length, max(1, scanLimit))` lines. -/
def findHeaderLineIndex (lines : List String) (scanLimit : Int) : Option Nat :=
  let limit : Int := min (lines.length : Int) (max 1 scanLimit)
  (List.range limit.toNat).find? fun i =>
    decide (0 < (jsTrim (stripAnsi (lines.getD i ""))).length)

/-- The clamped viewport top of `applyStickyHeader` (part_003 lines 12-13):
`min(viewportTop, max(0, totalLines - viewportHeight))` when a nonzero
(truthy) `viewportHeight` hint is given, else `viewportTop` itself. -/
def stickyEffectiveTop (lines : List String) (viewportTop : Int)
    (options : StickyHeaderOptions) : Int :=
  let maxViewportTop : Int :=
    match options.viewportHeight with
    | some vh => if vh ≠ 0 then max 0 ((lines.length : Int) - vh) else viewportTop
    | none => viewportTop
  min viewportTop maxViewportTop

/-- The header row index used by `applyStickyHeader` (part_003 line 16):
the explicit `headerIndex` option if present (`??`), else the detected
one. -/
def stickyHeaderIndex (lines : List String) (options : StickyHeaderOptions) :
    Option Int :=
  match options.headerIndex with
  | some h => some h
  | none =>
    (findHeaderLineIndex lines (options.scanLimit.getD 20)).map fun n => (n : Int)

/-- `applyStickyHeader` (src/unnamed/part_003 lines 9-23).  Truthiness of
`options.viewportHeight` is `≠ 0`; `??` keeps an explicit `headerIndex`. -/
def applyStickyHeader (lines : List String) (viewportTop : Int)
    (options : StickyHeaderOptions) : List (Option String) :=
  if lines.length = 0 then lines.map some
  else
    let effectiveTop := stickyEffectiveTop lines viewportTop options
    if effectiveTop ≤ 0 ∨ effectiveTop ≥ (lines.length : Int) then lines.map some
    else
      match stickyHeaderIndex lines options with
      | none => lines.map some
      | some headerIndex =>
        if effectiveTop ≤ headerIndex then lines.map some
        else (lines.map some).set effectiveTop.toNat (jsElem lines headerIndex)

/-! ## Unfolded forms of `ScrollLayout.renderViewport`

`renderViewport` branches on the scroll mode and on the child's viewport
capability.  The three `...Step` functions below spell out the value of one
frame in each regime; the equational lemmas in the theorems section prove
them equal to `renderViewport`.  They exist to keep the frame-level proofs
readable, not to replace the faithful definition above. -/

/-- Pad `l` with empty lines up to `n` rows (the near-top-of-content case). -/
def padToHeight (l : List String) (n : Int) : List String :=
  if (l.length : Int) < n then l ++ List.replicate (n - (l.length : Int)).toNat "" else l

/-- The bottom-anchored visible window of the fixed child. -/
def visibleFixed (F : List String) (vh : Int) : List String :=
  if (F.length : Int) > vh then jsSliceFrom F ((F.length : Int) - vh) else F

/-- One enabled frame over a child without the viewport capability whose
full render is `L`; `F` is the fixed child's render and `vh` the clamped
viewport height. -/
def plainEnabledStep (s : ScrollLayout) (L F : List String) (vh : Int) :
    ScrollLayout × ViewportRenderResult :=
  let Fv := visibleFixed F vh
  let avail := max 0 (vh - (Fv.length : Int))
  let M := max 0 ((L.length : Int) - avail)
  let t := if s.followOutput then M else min s.scrollTop M
  let out := padToHeight (jsSlice L t (t + avail)) avail
  ({ s with
      scrollTop := t
      followOutput := decide (t ≥ M)
      lastAvailableHeight := avail
      lastContentHeight := (L.length : Int)
      lastViewportHeight := vh },
    ⟨out ++ Fv, (L.length : Int) + (F.length : Int)⟩)

/-- One enabled frame over a viewport-aware child `rv` obeying the contract
with constant content height `ch`. -/
def awareEnabledStep (s : ScrollLayout) (rv : Int → ViewportInfo → ViewportRenderResult)
    (ch : Int) (F : List String) (w vh : Int) : ScrollLayout × ViewportRenderResult :=
  let Fv := visibleFixed F vh
  let avail := max 0 (vh - (Fv.length : Int))
  let M := max 0 (ch - avail)
  let t := if s.followOutput then M else min s.scrollTop M
  let outF := (rv w ⟨w, avail, t⟩).lines
  let sliced := if (outF.length : Int) ≥ ch then jsSlice outF t (t + avail) else outF
  ({ s with
      scrollTop := t
      followOutput := decide (t ≥ M)
      lastAvailableHeight := avail
      lastContentHeight := ch
      lastViewportHeight := vh },
    ⟨padToHeight sliced avail ++ Fv, ch + (F.length : Int)⟩)

/-- One disabled frame: the child is rendered at the caller's viewport
(`height`/`top` passed through) and nothing is sliced or padded. -/
def disabledStep (s : ScrollLayout) (scrollable fixed : Component)
    (w : Int) (v : ViewportInfo) : ScrollLayout × ViewportRenderResult :=
  let F := fixed.render w
  let first : List String × Int :=
    match scrollable.renderViewport? with
    | some rv =>
      let r := rv w ⟨w, v.height, v.top⟩
      (r.lines, max r.contentHeight (r.lines.length : Int))
    | none =>
      let ls := scrollable.render w
      (ls, (ls.length : Int))
  ({ s with
      scrollTop := s.scrollTop
      followOutput := true
      lastAvailableHeight := max 0 (max 0 v.height - (F.length : Int))
      lastContentHeight := first.2
      lastViewportHeight := max 0 v.height },
    ⟨first.1 ++ F, first.2 + (F.length : Int)⟩)

/-- The full scrollable output of a component: through the viewport
capability with unbounded height when supported, else its plain render. -/
def fullScrollableLines (sc : Component) (w : Int) : List String :=
  match sc.renderViewport? with
  | some rv => (rv w ⟨w, MAX_SAFE_INTEGER, 0⟩).lines
  | none => sc.render w

/-! ## Public operation sequences -/

/-- A public operation on a `ScrollLayout`: the four scroll mutators plus
the two rendering entry points.  Render operations carry the two child
components so that child content may differ from frame to frame. -/
inductive ScrollOp where
  | setScrollEnabled (enabled : Bool)
  | scrollBy (lines : Int)
  | scrollToTop
  | scrollToBottom
  | render (scrollable fixed : Component) (width : Int)
  | renderViewport (scrollable fixed : Component) (width : Int) (viewport : ViewportInfo)

/-- State transition of one public operation (render outputs discarded). -/
def ScrollOp.apply (s : ScrollLayout) : ScrollOp → ScrollLayout
  | .setScrollEnabled b => s.setScrollEnabled b
  | .scrollBy n => s.scrollBy n
  | .scrollToTop => s.scrollToTop
  | .scrollToBottom => s.scrollToBottom
  | .render sc fx w => (s.render sc fx w).1
  | .renderViewport sc fx w v => (s.renderViewport sc fx w v).1

/-- The scrollable child handed to a render operation obeys the
ViewportAware contract. -/
def ScrollOp.ChildrenWF : ScrollOp → Prop
  | .render sc _ _ => sc.WellFormed
  | .renderViewport sc _ _ _ => sc.WellFormed
  | _ => True

/-- Run a sequence of public operations from a state. -/
def runOps (s : ScrollLayout) (ops : List ScrollOp) : ScrollLayout :=
  ops.foldl ScrollOp.apply s

/-- The spec's ScrollState invariant, strengthened with the fact that a
disabled layout always sits at offset zero (needed for the induction). -/
def ScrollInv (s : ScrollLayout) : Prop :=
  0 ≤ s.scrollTop ∧ s.scrollTop ≤ s.getMaxScrollTop ∧
    (s.scrollEnabled = false → s.scrollTop = 0)

/-! ## Concrete components and states used by witnesses and counterexamples -/

/-- The spec's five-line scrollable transcript. -/
def outFive : List String := ["out-1", "out-2", "out-3", "out-4", "out-5"]

/-- The transcript after a sixth line has been appended. -/
def outSix : List String := outFive ++ ["out-6"]

/-- The spec's fixed region: input editor plus status footer. -/
def inputFooter : List String := ["input", "footer"]

/-- A ten-line transcript used to exercise overflow while disabled. -/
def outTen : List String :=
  ["o-1", "o-2", "o-3", "o-4", "o-5", "o-6", "o-7", "o-8", "o-9", "o-10"]

/-- A viewport-aware three-line child. -/
def awareAbc : Component := sliceComponent ["a", "b", "c"]

/-- A fixed child that renders nothing. -/
def emptyFixed : Component := plainComponent []

/-- The spec's example state: a fresh layout after one bottom-anchored
five-row frame over `outFive`/`inputFooter`; it shows
`[out-3, out-4, out-5, input, footer]` and is following. -/
def specFollowingState : ScrollLayout :=
  ((ScrollLayout.create {}).renderViewport (plainComponent outFive)
    (plainComponent inputFooter) 20 ⟨20, 5, 0⟩).1

/-- The spec's scrolled-up state showing `[out-2, out-3, out-4]`. -/
def specScrolledState : ScrollLayout := specFollowingState.scrollBy (-1)

/-- The same scrolled-up state reached over a viewport-aware five-line
child instead of a plain one. -/
def specScrolledAwareState : ScrollLayout :=
  (((ScrollLayout.create {}).renderViewport (sliceComponent outFive)
      (plainComponent inputFooter) 20 ⟨20, 5, 0⟩).1).scrollBy (-1)

/-- A disabled layout that has already produced a two-row frame (so its
recorded viewport height is positive). -/
def disabledAfterFrameState : ScrollLayout :=
  (((ScrollLayout.create {}).renderViewport awareAbc emptyFixed 20 ⟨20, 2, 0⟩).1).setScrollEnabled
    false

/-- Follow-mode layout over `outTen` after one five-row frame, then
disabled: offset 0, follow mode on, recorded content height 10. -/
def disabledOverflowState : ScrollLayout :=
  (((ScrollLayout.create {}).renderViewport (plainComponent outTen)
      (plainComponent inputFooter) 20 ⟨20, 5, 0⟩).1).setScrollEnabled false

/-- The C5 example input: ten lines whose only non-blank line among the
first five is line 1. -/
def stickyLines : List String :=
  ["", "HEADER", "", "", "", "line-5", "line-6", "line-7", "line-8", "line-9"]

/-! ## Equational lemmas for `renderViewport` -/

/-- An enabled frame over a child without the viewport capability is
`plainEnabledStep` on the child's full render. -/
theorem renderViewport_none_of_enabled (s : ScrollLayout) (sc fx : Component) (w : Int)
    (v : ViewportInfo) (hsc : sc.renderViewport? = none) (hen : s.scrollEnabled = true) :
    s.renderViewport sc fx w v =
      plainEnabledStep s (sc.render w) (fx.render w) (max 0 v.height) := by
  simp only [ScrollLayout.renderViewport, plainEnabledStep, visibleFixed, padToHeight,
    hsc, hen, if_true, true_and, le_refl, ge_iff_le, ite_true, ite_self]

/-- An enabled frame over a viewport-aware child obeying the contract with
constant content height `ch` is `awareEnabledStep`. -/
theorem renderViewport_aware_of_enabled (s : ScrollLayout) (sc fx : Component) (w : Int)
    (v : ViewportInfo) (rv : Int → ViewportInfo → ViewportRenderResult)
    (hsc : sc.renderViewport? = some rv) (hen : s.scrollEnabled = true) (ch : Int)
    (hch : ∀ w' v', (rv w' v').contentHeight = ch)
    (hlen : ∀ w' v', ((rv w' v').lines.length : Int) ≤ ch) :
    s.renderViewport sc fx w v =
      awareEnabledStep s rv ch (fx.render w) w (max 0 v.height) := by
  have hmax : ∀ w' v',
      max (rv w' v').contentHeight ((rv w' v').lines.length : Int) = ch := by
    intro w' v'
    rw [hch w' v']
    exact max_eq_left (hch w' v' ▸ hlen w' v')
  simp only [ScrollLayout.renderViewport, awareEnabledStep, visibleFixed, padToHeight,
    hsc, hen, hmax, if_true, true_and, ite_true]
  generalize fx.render w = F
  generalize max 0 v.height = vh
  generalize (if ((F.length : Int) > vh) then jsSliceFrom F ((F.length : Int) - vh)
    else F) = Fv
  generalize max 0 (vh - (Fv.length : Int)) = avail
  generalize max 0 (ch - avail) = M
  generalize ht : (if s.followOutput = true then M else min s.scrollTop M) = t
  by_cases hne : t = s.scrollTop
  · simp [hne]
  · simp [hne]

/-- A disabled frame is `disabledStep`: the caller's viewport is passed
through to the child and nothing is sliced, padded, or clamped. -/
theorem renderViewport_of_disabled (s : ScrollLayout) (sc fx : Component) (w : Int)
    (v : ViewportInfo) (hen : s.scrollEnabled = false) :
    s.renderViewport sc fx w v = disabledStep s sc fx w v := by
  simp only [ScrollLayout.renderViewport, disabledStep, hen, Bool.false_eq_true, false_and,
    if_false, ite_false]

/-- `ScrollLayout.render` delegates to `renderViewport` at the recorded
viewport height once one is known. -/
theorem render_of_pos_lastViewportHeight (s : ScrollLayout) (sc fx : Component) (w : Int)
    (h : 0 < s.lastViewportHeight) :
    s.render sc fx w =
      ((s.renderViewport sc fx w ⟨w, s.lastViewportHeight, 0⟩).1,
        (s.renderViewport sc fx w ⟨w, s.lastViewportHeight, 0⟩).2.lines) := by
  simp only [ScrollLayout.render, h, if_true, ite_true]

/-- A well-formed viewport capability has one constant content height. -/
theorem Component.WellFormed.exists_ch {sc : Component}
    (hwf : sc.WellFormed) (rv : Int → ViewportInfo → ViewportRenderResult)
    (hsc : sc.renderViewport? = some rv) :
    ∃ ch, (∀ w' v', (rv w' v').contentHeight = ch) ∧
      (∀ w' v', ((rv w' v').lines.length : Int) ≤ ch) := by
  obtain ⟨hconst, hbound⟩ := hwf rv hsc
  refine ⟨(rv 0 ⟨0, 0, 0⟩).contentHeight, fun w' v' => hconst w' v' 0 ⟨0, 0, 0⟩,
    fun w' v' => ?_⟩
  exact (hconst w' v' 0 ⟨0, 0, 0⟩) ▸ hbound w' v'

/-! ## The scroll-offset invariant (C2 machinery) -/

/-- `plainEnabledStep` establishes the invariant whenever the incoming
offset is nonnegative. -/
theorem scrollInv_plainEnabledStep (s : ScrollLayout) (L F : List String) (vh : Int)
    (hen : s.scrollEnabled = true) (h0 : 0 ≤ s.scrollTop) :
    ScrollInv (plainEnabledStep s L F vh).1 := by
  simp only [plainEnabledStep, ScrollInv, ScrollLayout.getMaxScrollTop]
  refine ⟨?_, ?_, ?_⟩
  · split_ifs <;> omega
  · split_ifs <;> omega
  · simp [hen]

/-- `awareEnabledStep` establishes the invariant whenever the incoming
offset is nonnegative. -/
theorem scrollInv_awareEnabledStep (s : ScrollLayout)
    (rv : Int → ViewportInfo → ViewportRenderResult) (ch : Int) (F : List String)
    (w vh : Int) (hen : s.scrollEnabled = true) (h0 : 0 ≤ s.scrollTop) :
    ScrollInv (awareEnabledStep s rv ch F w vh).1 := by
  simp only [awareEnabledStep, ScrollInv, ScrollLayout.getMaxScrollTop]
  refine ⟨?_, ?_, ?_⟩
  · split_ifs <;> omega
  · split_ifs <;> omega
  · simp [hen]

/-- `disabledStep` preserves the invariant. -/
theorem scrollInv_disabledStep (s : ScrollLayout) (sc fx : Component) (w : Int)
    (v : ViewportInfo) (hen : s.scrollEnabled = false) (hinv : ScrollInv s) :
    ScrollInv (disabledStep s sc fx w v).1 := by
  obtain ⟨-, -, h3⟩ := hinv
  have h0 := h3 hen
  simp only [disabledStep, ScrollInv, ScrollLayout.getMaxScrollTop, h0]
  exact ⟨le_refl 0, le_max_left 0 _, fun _ => trivial⟩

/-- One `renderViewport` frame with a contract-abiding scrollable child
preserves the invariant. -/
theorem scrollInv_renderViewport (s : ScrollLayout) (sc fx : Component) (w : Int)
    (v : ViewportInfo) (hwf : sc.WellFormed) (hinv : ScrollInv s) :
    ScrollInv (s.renderViewport sc fx w v).1 := by
  by_cases hen : s.scrollEnabled = true
  · cases hsc : sc.renderViewport? with
    | none =>
      rw [renderViewport_none_of_enabled s sc fx w v hsc hen]
      exact scrollInv_plainEnabledStep s _ _ _ hen hinv.1
    | some rv =>
      obtain ⟨ch, hch, hlen⟩ := hwf.exists_ch rv hsc
      rw [renderViewport_aware_of_enabled s sc fx w v rv hsc hen ch hch hlen]
      exact scrollInv_awareEnabledStep s rv ch _ w _ hen hinv.1
  · rw [renderViewport_of_disabled s sc fx w v (Bool.not_eq_true _ ▸ hen)]
    exact scrollInv_disabledStep s sc fx w v (Bool.not_eq_true _ ▸ hen) hinv

/-- Every public operation with contract-abiding children preserves the
invariant. -/
theorem scrollInv_apply (s : ScrollLayout) (op : ScrollOp) (hwf : op.ChildrenWF)
    (hinv : ScrollInv s) : ScrollInv (op.apply s) := by
  obtain ⟨h1, h2, h3⟩ := hinv
  cases op with
  | setScrollEnabled b =>
    cases b <;>
      simp_all [ScrollOp.apply, ScrollLayout.setScrollEnabled, ScrollInv,
        ScrollLayout.getMaxScrollTop]
  | scrollBy n =>
    simp only [ScrollOp.apply, ScrollLayout.scrollBy, ScrollLayout.setScrollTop,
      ScrollLayout.getMaxScrollTop, ScrollInv]
    split_ifs with hen
    · simp_all [ScrollLayout.getMaxScrollTop]
      omega
    · simp_all [ScrollLayout.getMaxScrollTop]
  | scrollToTop =>
    simp only [ScrollOp.apply, ScrollLayout.scrollToTop, ScrollLayout.setScrollTop,
      ScrollLayout.getMaxScrollTop, ScrollInv]
    split_ifs with hen <;> simp_all [ScrollLayout.getMaxScrollTop]
  | scrollToBottom =>
    simp only [ScrollOp.apply, ScrollLayout.scrollToBottom, ScrollLayout.getMaxScrollTop,
      ScrollInv]
    split_ifs with hen <;> simp_all [ScrollLayout.getMaxScrollTop]
  | render sc fx width =>
    simp only [ScrollOp.apply, ScrollLayout.render]
    split_ifs with hvh
    · exact scrollInv_renderViewport s sc fx width _ hwf ⟨h1, h2, h3⟩
    · exact ⟨h1, h2, h3⟩
  | renderViewport sc fx width viewport =>
    exact scrollInv_renderViewport s sc fx width viewport hwf ⟨h1, h2, h3⟩

/-- The invariant holds along any run from a freshly constructed layout. -/
theorem scrollInv_runOps (s : ScrollLayout) (ops : List ScrollOp)
    (hwf : ∀ op ∈ ops, op.ChildrenWF) (hinv : ScrollInv s) :
    ScrollInv (runOps s ops) := by
  induction ops generalizing s with
  | nil => exact hinv
  | cons op rest ih =>
    exact ih (op.apply s) (fun o ho => hwf o (List.mem_cons_of_mem op ho))
      (scrollInv_apply s op (hwf op (List.mem_cons_self op rest)) hinv)

/-- A component without the viewport capability trivially satisfies the
ViewportAware contract. -/
theorem plainComponent_wellFormed (L : List String) :
    (plainComponent L).WellFormed :=
  fun _ h => Option.noConfusion h

/-- A slice never has more elements than the list it came from. -/
theorem jsSlice_length_le (l : List α) (a b : Int) :
    (jsSlice l a b).length ≤ l.length := by
  simp only [jsSlice, List.length_drop, List.length_take]
  omega

/-- The canonical viewport-aware component satisfies the contract. -/
theorem sliceComponent_wellFormed (L : List String) :
    (sliceComponent L).WellFormed := by
  intro rv h
  simp only [sliceComponent, Option.some.injEq] at h
  subst h
  refine ⟨fun w v w' v' => rfl, fun w v => ?_⟩
  show ((jsSlice L v.top (v.top + v.height)).length : Int) ≤ (L.length : Int)
  exact_mod_cast jsSlice_length_le L v.top (v.top + v.height)

/-- C2: for every sequence of public operations (setScrollEnabled,
scrollBy, scrollToTop, scrollToBottom) and renders of a `ScrollLayout`
whose scrollable children obey the ViewportAware contract, the invariant
`0 ≤ scrollOffset ≤ max(0, lastContentHeight − lastAvailableHeight)` holds
after each operation and after each render. -/
theorem scrollLayout_offset_invariant (options : ScrollLayoutOptions) (ops : List ScrollOp)
    (hwf : ∀ op ∈ ops, op.ChildrenWF) :
    0 ≤ (runOps (ScrollLayout.create options) ops).scrollTop ∧
      (runOps (ScrollLayout.create options) ops).scrollTop ≤
        max 0 ((runOps (ScrollLayout.create options) ops).lastContentHeight -
          (runOps (ScrollLayout.create options) ops).lastAvailableHeight) := by
  have hinit : ScrollInv (ScrollLayout.create options) := by
    simp [ScrollLayout.create, ScrollInv, ScrollLayout.getMaxScrollTop]
  have h := scrollInv_runOps (ScrollLayout.create options) ops hwf hinit
  exact ⟨h.1, h.2.1⟩

/-- C2 witness: a concrete run mixing scrolls, renders (plain and
viewport-aware children), and a mode toggle keeps the offset in bounds. -/
theorem scrollLayout_offset_invariant_witness :
    0 ≤ (runOps (ScrollLayout.create {})
          [ScrollOp.renderViewport (plainComponent outFive) (plainComponent inputFooter) 20
              ⟨20, 5, 0⟩,
            ScrollOp.scrollBy (-1),
            ScrollOp.render (sliceComponent outSix) (plainComponent inputFooter) 20,
            ScrollOp.setScrollEnabled false,
            ScrollOp.scrollToBottom]).scrollTop ∧
      (runOps (ScrollLayout.create {})
          [ScrollOp.renderViewport (plainComponent outFive) (plainComponent inputFooter) 20
              ⟨20, 5, 0⟩,
            ScrollOp.scrollBy (-1),
            ScrollOp.render (sliceComponent outSix) (plainComponent inputFooter) 20,
            ScrollOp.setScrollEnabled false,
            ScrollOp.scrollToBottom]).scrollTop ≤
        max 0 ((runOps (ScrollLayout.create {})
            [ScrollOp.renderViewport (plainComponent outFive) (plainComponent inputFooter) 20
                ⟨20, 5, 0⟩,
              ScrollOp.scrollBy (-1),
              ScrollOp.render (sliceComponent outSix) (plainComponent inputFooter) 20,
              ScrollOp.setScrollEnabled false,
              ScrollOp.scrollToBottom]).lastContentHeight -
          (runOps (ScrollLayout.create {})
            [ScrollOp.renderViewport (plainComponent outFive) (plainComponent inputFooter) 20
                ⟨20, 5, 0⟩,
              ScrollOp.scrollBy (-1),
              ScrollOp.render (sliceComponent outSix) (plainComponent inputFooter) 20,
              ScrollOp.setScrollEnabled false,
              ScrollOp.scrollToBottom]).lastAvailableHeight) := by
  refine scrollLayout_offset_invariant {} _ ?_
  intro op hop
  simp only [List.mem_cons, List.not_mem_nil, or_false] at hop
  rcases hop with rfl | rfl | rfl | rfl | rfl
  · exact plainComponent_wellFormed outFive
  · trivial
  · exact sliceComponent_wellFormed outSix
  · trivial
  · trivial

/-! ## Follow mode versus maximal offset (C6 machinery) -/

/-- After a plain enabled frame, follow mode holds exactly at the maximal
offset. -/
theorem followIff_plainEnabledStep (s : ScrollLayout) (L F : List String) (vh : Int) :
    (plainEnabledStep s L F vh).1.followOutput = true ↔
      (plainEnabledStep s L F vh).1.scrollTop =
        (plainEnabledStep s L F vh).1.getMaxScrollTop := by
  simp only [plainEnabledStep, ScrollLayout.getMaxScrollTop, decide_eq_true_eq, ge_iff_le]
  split_ifs <;> omega

/-- After an aware enabled frame, follow mode holds exactly at the maximal
offset. -/
theorem followIff_awareEnabledStep (s : ScrollLayout)
    (rv : Int → ViewportInfo → ViewportRenderResult) (ch : Int) (F : List String)
    (w vh : Int) :
    (awareEnabledStep s rv ch F w vh).1.followOutput = true ↔
      (awareEnabledStep s rv ch F w vh).1.scrollTop =
        (awareEnabledStep s rv ch F w vh).1.getMaxScrollTop := by
  simp only [awareEnabledStep, ScrollLayout.getMaxScrollTop, decide_eq_true_eq, ge_iff_le]
  split_ifs <;> omega

/-- C6 counterexample: the biconditional `followOutput ⇔ scrollOffset =
maxScrollOffset` does not survive a frame render in disabled mode.  After
an enabled five-row frame over ten content lines, disabling scrolling and
rendering one more frame leaves `followOutput = true` with offset `0`
while the recomputed `maxScrollOffset` is `7`. -/
theorem follow_iff_at_max_cex :
    (disabledOverflowState.render (plainComponent outTen)
        (plainComponent inputFooter) 20).1.followOutput = true ∧
      (disabledOverflowState.render (plainComponent outTen)
          (plainComponent inputFooter) 20).1.scrollTop ≠
        (disabledOverflowState.render (plainComponent outTen)
            (plainComponent inputFooter) 20).1.getMaxScrollTop := by
  decide

/-- C6 amended: while scrolling is enabled, `followOutput = true` iff
`scrollOffset = maxScrollOffset` after every viewport frame with a
contract-abiding child and after every `scrollBy`/`scrollToTop`/
`scrollToBottom`; in disabled mode the layout instead pins
`followOutput = true` and `scrollOffset = 0` after `setScrollEnabled(false)`,
after `scrollToBottom`, and after every frame rendered from offset `0` (the
only reachable disabled offset) — `maxScrollOffset` itself need not be `0`
there, so the biconditional does not extend to disabled states. -/
theorem follow_iff_at_max_amended :
    (∀ (s : ScrollLayout) (sc fx : Component) (w : Int) (v : ViewportInfo),
      s.scrollEnabled = true → sc.WellFormed →
        ((s.renderViewport sc fx w v).1.followOutput = true ↔
          (s.renderViewport sc fx w v).1.scrollTop =
            (s.renderViewport sc fx w v).1.getMaxScrollTop)) ∧
    (∀ (s : ScrollLayout) (n : Int), s.scrollEnabled = true →
      ((s.scrollBy n).followOutput = true ↔
        (s.scrollBy n).scrollTop = (s.scrollBy n).getMaxScrollTop)) ∧
    (∀ s : ScrollLayout, s.scrollEnabled = true →
      (s.scrollToTop.followOutput = true ↔
        s.scrollToTop.scrollTop = s.scrollToTop.getMaxScrollTop)) ∧
    (∀ s : ScrollLayout, s.scrollEnabled = true →
      (s.scrollToBottom.followOutput = true ↔
        s.scrollToBottom.scrollTop = s.scrollToBottom.getMaxScrollTop)) ∧
    (∀ (s : ScrollLayout) (sc fx : Component) (w : Int) (v : ViewportInfo),
      s.scrollEnabled = false → s.scrollTop = 0 →
        (s.renderViewport sc fx w v).1.followOutput = true ∧
          (s.renderViewport sc fx w v).1.scrollTop = 0) ∧
    (∀ s : ScrollLayout,
      (s.setScrollEnabled false).followOutput = true ∧
        (s.setScrollEnabled false).scrollTop = 0) ∧
    (∀ s : ScrollLayout, s.scrollEnabled = false →
      s.scrollToBottom.followOutput = true ∧ s.scrollToBottom.scrollTop = 0) := by
  refine ⟨?_, ?_, ?_, ?_, ?_, ?_, ?_⟩
  · intro s sc fx w v hen hwf
    cases hsc : sc.renderViewport? with
    | none =>
      rw [renderViewport_none_of_enabled s sc fx w v hsc hen]
      exact followIff_plainEnabledStep s _ _ _
    | some rv =>
      obtain ⟨ch, hch, hlen⟩ := hwf.exists_ch rv hsc
      rw [renderViewport_aware_of_enabled s sc fx w v rv hsc hen ch hch hlen]
      exact followIff_awareEnabledStep s rv ch _ w _
  · intro s n hen
    simp only [ScrollLayout.scrollBy, ScrollLayout.setScrollTop,
      ScrollLayout.getMaxScrollTop, hen, if_true, decide_eq_true_eq, ge_iff_le, ite_true]
    omega
  · intro s hen
    simp only [ScrollLayout.scrollToTop, ScrollLayout.setScrollTop,
      ScrollLayout.getMaxScrollTop, hen, if_true, decide_eq_true_eq, ge_iff_le, ite_true]
    omega
  · intro s hen
    simp only [ScrollLayout.scrollToBottom, ScrollLayout.getMaxScrollTop, hen, if_true,
      ite_true]
  · intro s sc fx w v hen h0
    rw [renderViewport_of_disabled s sc fx w v hen]
    exact ⟨rfl, h0⟩
  · intro s
    simp [ScrollLayout.setScrollEnabled]
  · intro s hen
    simp [ScrollLayout.scrollToBottom, hen]

/-- C6 witness: the amended biconditional instantiated at the spec's
concrete following state for `scrollBy(-1)`. -/
theorem follow_iff_at_max_witness :
    (specFollowingState.scrollBy (-1)).followOutput = true ↔
      (specFollowingState.scrollBy (-1)).scrollTop =
        (specFollowingState.scrollBy (-1)).getMaxScrollTop :=
  follow_iff_at_max_amended.2.1 specFollowingState (-1) (by decide)

/-! ## The spec's scroll example (C4) -/

/-- C4 counterexample: from the enabled following state over
`[out-1..out-5]` with fixed `[input, footer]` at height 5 (render =
`[out-3, out-4, out-5, input, footer]`), calling `scrollBy(1)` and
re-rendering does not yield `[out-2, out-3, out-4, input, footer]`:
`scrollBy` adds to the offset, which is already at its maximum, so the
clamp makes it a no-op. -/
theorem scrollBy_one_example_cex :
    ((specFollowingState.scrollBy 1).render (plainComponent outFive)
        (plainComponent inputFooter) 20).2 ≠
      ["out-2", "out-3", "out-4", "input", "footer"] := by
  decide

/-- C4 amended: in that state the bottom-anchored render is
`[out-3, out-4, out-5, input, footer]`; `scrollBy(1)` is clamped to a
no-op, and it is `scrollBy(-1)` (scrolling up one line, as the wheel-up
event emits) that yields `[out-2, out-3, out-4, input, footer]`. -/
theorem scrollBy_example_amended :
    (specFollowingState.render (plainComponent outFive)
        (plainComponent inputFooter) 20).2 =
      ["out-3", "out-4", "out-5", "input", "footer"] ∧
    ((specFollowingState.scrollBy 1).render (plainComponent outFive)
        (plainComponent inputFooter) 20).2 =
      ["out-3", "out-4", "out-5", "input", "footer"] ∧
    ((specFollowingState.scrollBy (-1)).render (plainComponent outFive)
        (plainComponent inputFooter) 20).2 =
      ["out-2", "out-3", "out-4", "input", "footer"] := by
  decide

/-! ## Disabled-mode rendering (C3) -/

/-- C3 counterexample: with a viewport-aware three-line child and an empty
fixed child, a disabled layout whose previous frame recorded viewport
height 2 renders only the child's first two rows, not its full output. -/
theorem disabled_render_full_output_cex :
    (disabledAfterFrameState.render awareAbc emptyFixed 20).2 ≠
      fullScrollableLines awareAbc 20 ++ emptyFixed.render 20 := by
  decide

/-- C3 amended: whenever scroll mode is disabled, `render(width)` returns
the scrollable output concatenated with the full fixed output, with no
slicing, padding, or selection applied by the layout; the scrollable part
is the full output (unbounded-height viewport render when supported, else
plain render) provided the child lacks the viewport capability or no prior
frame has recorded a positive viewport height — for a viewport-aware child
after such a frame, the child is instead asked for rows `[0, H)` at the
recorded height `H`, which can truncate the scrollable part. -/
theorem disabled_render_full_output_amended (s : ScrollLayout) (sc fx : Component)
    (w : Int) (hen : s.scrollEnabled = false)
    (h : sc.renderViewport? = none ∨ s.lastViewportHeight ≤ 0) :
    (s.render sc fx w).2 = fullScrollableLines sc w ++ fx.render w := by
  by_cases hvh : 0 < s.lastViewportHeight
  · rcases h with hsc | hle
    · rw [render_of_pos_lastViewportHeight s sc fx w hvh,
        renderViewport_of_disabled s sc fx w _ hen]
      simp [disabledStep, fullScrollableLines, hsc]
    · omega
  · simp only [ScrollLayout.render, hvh, if_false, ite_false, fullScrollableLines]

/-- C3 witness: a disabled layout with a recorded five-row viewport over a
plain ten-line child still renders all ten content rows plus the fixed
region. -/
theorem disabled_render_full_output_witness :
    (disabledOverflowState.render (plainComponent outTen)
        (plainComponent inputFooter) 20).2 =
      fullScrollableLines (plainComponent outTen) 20 ++
        (plainComponent inputFooter).render 20 :=
  disabled_render_full_output_amended disabledOverflowState (plainComponent outTen)
    (plainComponent inputFooter) 20 (by decide) (Or.inl rfl)

/-! ## Viewport stability (C1) -/

/-- A slice taken entirely inside `L` ignores anything appended after `L`. -/
theorem jsSlice_append (L E : List α) (a b : Int) (h0 : 0 ≤ a) (hab : a ≤ b)
    (hb : b ≤ (L.length : Int)) : jsSlice (L ++ E) a b = jsSlice L a b := by
  have ha' : ¬a < 0 := by omega
  have hb' : ¬b < 0 := by omega
  have hbt : b.toNat ≤ L.length := by omega
  simp only [jsSlice, jsSliceIdx, List.length_append, ha', hb', if_false, ite_false]
  rw [min_eq_left hbt, min_eq_left (le_trans hbt (Nat.le_add_right _ _)),
    min_eq_left (by omega : a.toNat ≤ L.length),
    min_eq_left (by omega : a.toNat ≤ L.length + E.length),
    List.take_append_of_le_length hbt]

/-- Core of viewport stability: when an enabled plain frame leaves follow
mode off, re-running the frame with lines appended to the content produces
the same output rows, for any starting offset `≥ 0`. -/
theorem plainEnabledStep_stable (s : ScrollLayout) (L ext Fx : List String) (vh : Int)
    (h0 : 0 ≤ s.scrollTop)
    (hfollow : (plainEnabledStep s L Fx vh).1.followOutput = false) :
    (plainEnabledStep (plainEnabledStep s L Fx vh).1 (L ++ ext) Fx vh).2.lines =
      (plainEnabledStep s L Fx vh).2.lines := by
  by_cases hf : s.followOutput = true
  · exfalso
    simp only [plainEnabledStep, hf, if_true, ite_true, decide_eq_true_eq, ge_iff_le,
      decide_eq_false_iff_not] at hfollow
    exact hfollow (le_refl _)
  · simp only [plainEnabledStep, hf, Bool.false_eq_true, if_false, ite_false,
      decide_eq_true_eq, ge_iff_le, decide_eq_false_iff_not] at hfollow ⊢
    generalize hA : max 0 (vh - ((visibleFixed Fx vh).length : Int)) = A at hfollow ⊢
    generalize hM : max 0 ((L.length : Int) - A) = M at hfollow ⊢
    generalize hM' : max 0 (((L ++ ext).length : Int) - A) = M'
    have hA0 : 0 ≤ A := by rw [← hA]; exact le_max_left _ _
    have hlen : ((L ++ ext).length : Int) = (L.length : Int) + (ext.length : Int) := by
      rw [List.length_append]; push_cast; ring
    rw [hlen] at hM'
    rw [if_neg hfollow]
    have ht' : (s.scrollTop ⊓ M) ⊓ M' = s.scrollTop ⊓ M := by omega
    rw [ht', jsSlice_append L ext (s.scrollTop ⊓ M) (s.scrollTop ⊓ M + A) (by omega)
      (by omega) (by omega)]

/-- The number of rows in a slice taken strictly inside the list. -/
theorem jsSlice_length_eq (l : List α) (a b : Int) (h0 : 0 ≤ a) (hab : a ≤ b)
    (hb : b ≤ (l.length : Int)) : ((jsSlice l a b).length : Int) = b - a := by
  have ha' : ¬a < 0 := by omega
  have hb' : ¬b < 0 := by omega
  simp only [jsSlice, jsSliceIdx, ha', hb', if_false, ite_false, List.length_drop,
    List.length_take]
  omega

/-- Core of viewport stability for a viewport-aware child with slice
semantics: when an enabled aware frame over content `L` leaves follow mode
off, re-running the frame over content `L ++ ext` produces the same output
rows, for any starting offset `≥ 0`. -/
theorem awareEnabledStep_stable (s : ScrollLayout) (L ext F : List String) (w vh : Int)
    (rv rv' : Int → ViewportInfo → ViewportRenderResult)
    (hrv : ∀ w' v', (rv w' v').lines = jsSlice L v'.top (v'.top + v'.height))
    (hrv' : ∀ w' v', (rv' w' v').lines = jsSlice (L ++ ext) v'.top (v'.top + v'.height))
    (h0 : 0 ≤ s.scrollTop)
    (hfollow : (awareEnabledStep s rv (L.length : Int) F w vh).1.followOutput = false) :
    (awareEnabledStep (awareEnabledStep s rv (L.length : Int) F w vh).1 rv'
        ((L ++ ext).length : Int) F w vh).2.lines =
      (awareEnabledStep s rv (L.length : Int) F w vh).2.lines := by
  by_cases hf : s.followOutput = true
  · exfalso
    simp only [awareEnabledStep, hf, if_true, ite_true, decide_eq_true_eq, ge_iff_le,
      decide_eq_false_iff_not] at hfollow
    exact hfollow (le_refl _)
  · simp only [awareEnabledStep, hf, Bool.false_eq_true, if_false, ite_false,
      decide_eq_true_eq, ge_iff_le, decide_eq_false_iff_not] at hfollow ⊢
    simp only [hrv, hrv']
    generalize hA : max 0 (vh - ((visibleFixed F vh).length : Int)) = A at hfollow ⊢
    generalize hM : max 0 ((L.length : Int) - A) = M at hfollow ⊢
    generalize hM' : max 0 (((L ++ ext).length : Int) - A) = M'
    have hA0 : 0 ≤ A := by rw [← hA]; exact le_max_left _ _
    have hlapp : ((L ++ ext).length : Int) = (L.length : Int) + (ext.length : Int) := by
      rw [List.length_append]; push_cast; ring
    rw [hlapp] at hM'
    simp only [hlapp]
    rw [if_neg hfollow]
    have ht' : (s.scrollTop ⊓ M) ⊓ M' = s.scrollTop ⊓ M := by omega
    rw [ht', jsSlice_append L ext (s.scrollTop ⊓ M) (s.scrollTop ⊓ M + A) (by omega)
      (by omega) (by omega)]
    have hslice : ((jsSlice L (s.scrollTop ⊓ M) (s.scrollTop ⊓ M + A)).length : Int) = A := by
      have := jsSlice_length_eq L (s.scrollTop ⊓ M) (s.scrollTop ⊓ M + A) (by omega)
        (by omega) (by omega)
      omega
    rw [if_neg (by omega), if_neg (by omega)]

/-- A `plainComponent` presents its lines as capability-free content. -/
theorem plainComponent_presents (L : List String) :
    (plainComponent L).PresentsPlain L :=
  ⟨rfl, fun _ => rfl⟩

/-- A `sliceComponent` presents its lines as viewport-aware content. -/
theorem sliceComponent_presents (L : List String) :
    (sliceComponent L).PresentsSliced L :=
  ⟨_, rfl, fun _ _ => ⟨rfl, rfl⟩⟩

/-- C1: viewport stability.  For every enabled `ScrollLayout` with a
recorded viewport height whose scrollable child presents content `L` —
either capability-free or viewport-aware with the §4.2 slice semantics —
and whose frame leaves `followOutput` false with the offset inside the new
scroll bounds, appending `ext` to the scrollable child's content and
re-rendering yields exactly the same lines: the previously visible
scrollable rows are unchanged. -/
theorem scrollLayout_viewport_stability (L ext : List String) (s : ScrollLayout)
    (sc sc' fx : Component) (w : Int)
    (hpres : (sc.PresentsPlain L ∧ sc'.PresentsPlain (L ++ ext)) ∨
      (sc.PresentsSliced L ∧ sc'.PresentsSliced (L ++ ext)))
    (hen : s.scrollEnabled = true) (hvh : 0 < s.lastViewportHeight)
    (h0 : 0 ≤ s.scrollTop)
    (hfollow : (s.render sc fx w).1.followOutput = false)
    (_hbound : (s.render sc fx w).1.scrollTop ≤
      max 0 (((L.length : Int) + (ext.length : Int)) -
        (s.render sc fx w).1.lastAvailableHeight)) :
    ((s.render sc fx w).1.render sc' fx w).2 = (s.render sc fx w).2 := by
  clear _hbound
  rw [render_of_pos_lastViewportHeight s sc fx w hvh] at hfollow ⊢
  have hmm : max 0 (max 0 s.lastViewportHeight) = max 0 s.lastViewportHeight := by omega
  rcases hpres with ⟨⟨hnone, hren⟩, hnone', hren'⟩ | ⟨⟨rv, hsome, hbeh⟩, rv', hsome', hbeh'⟩
  · rw [renderViewport_none_of_enabled s sc fx w _ hnone hen] at hfollow ⊢
    rw [hren w] at hfollow ⊢
    have hvhe : (plainEnabledStep s L (fx.render w)
        (max 0 s.lastViewportHeight)).1.lastViewportHeight =
          max 0 s.lastViewportHeight := by
      simp [plainEnabledStep]
    have hvh2 : 0 < (plainEnabledStep s L (fx.render w)
        (max 0 s.lastViewportHeight)).1.lastViewportHeight := by
      rw [hvhe]; omega
    have hen2 : (plainEnabledStep s L (fx.render w)
        (max 0 s.lastViewportHeight)).1.scrollEnabled = true := by
      simp [plainEnabledStep, hen]
    rw [render_of_pos_lastViewportHeight _ sc' fx w hvh2,
      renderViewport_none_of_enabled _ sc' fx w _ hnone' hen2, hren' w]
    simp only [hvhe]
    rw [hmm]
    exact plainEnabledStep_stable s L ext (fx.render w) (max 0 s.lastViewportHeight) h0
      hfollow
  · have hch : ∀ w' v', (rv w' v').contentHeight = (L.length : Int) :=
      fun w' v' => (hbeh w' v').2
    have hle : ∀ w' v', ((rv w' v').lines.length : Int) ≤ (L.length : Int) := by
      intro w' v'
      rw [(hbeh w' v').1]
      exact_mod_cast jsSlice_length_le L v'.top (v'.top + v'.height)
    have hch' : ∀ w' v', (rv' w' v').contentHeight = ((L ++ ext).length : Int) :=
      fun w' v' => (hbeh' w' v').2
    have hle' : ∀ w' v', ((rv' w' v').lines.length : Int) ≤ ((L ++ ext).length : Int) := by
      intro w' v'
      rw [(hbeh' w' v').1]
      exact_mod_cast jsSlice_length_le (L ++ ext) v'.top (v'.top + v'.height)
    rw [renderViewport_aware_of_enabled s sc fx w _ rv hsome hen _ hch hle] at hfollow ⊢
    have hvhe : (awareEnabledStep s rv (L.length : Int) (fx.render w) w
        (max 0 s.lastViewportHeight)).1.lastViewportHeight =
          max 0 s.lastViewportHeight := by
      simp [awareEnabledStep]
    have hvh2 : 0 < (awareEnabledStep s rv (L.length : Int) (fx.render w) w
        (max 0 s.lastViewportHeight)).1.lastViewportHeight := by
      rw [hvhe]; omega
    have hen2 : (awareEnabledStep s rv (L.length : Int) (fx.render w) w
        (max 0 s.lastViewportHeight)).1.scrollEnabled = true := by
      simp [awareEnabledStep, hen]
    rw [render_of_pos_lastViewportHeight _ sc' fx w hvh2,
      renderViewport_aware_of_enabled _ sc' fx w _ rv' hsome' hen2 _ hch' hle']
    simp only [hvhe]
    rw [hmm]
    exact awareEnabledStep_stable s L ext (fx.render w) w (max 0 s.lastViewportHeight)
      rv rv' (fun w' v' => (hbeh w' v').1) (fun w' v' => (hbeh' w' v').1) h0 hfollow

/-- C1 witness: the spec's instance, for both child kinds.  Scrolled to
show `[out-2, out-3, out-4]` over `[input, footer]`, the layout renders
identically after `out-6` is appended — whether the scrollable child is
capability-free or viewport-aware — and that render is
`[out-2, out-3, out-4, input, footer]`. -/
theorem scrollLayout_viewport_stability_witness :
    (((specScrolledState.render (plainComponent outFive) (plainComponent inputFooter)
            20).1.render (plainComponent (outFive ++ ["out-6"]))
          (plainComponent inputFooter) 20).2 =
        (specScrolledState.render (plainComponent outFive) (plainComponent inputFooter)
            20).2 ∧
      (specScrolledState.render (plainComponent outFive) (plainComponent inputFooter)
          20).2 = ["out-2", "out-3", "out-4", "input", "footer"]) ∧
    (((specScrolledAwareState.render (sliceComponent outFive)
            (plainComponent inputFooter) 20).1.render
          (sliceComponent (outFive ++ ["out-6"])) (plainComponent inputFooter) 20).2 =
        (specScrolledAwareState.render (sliceComponent outFive)
            (plainComponent inputFooter) 20).2 ∧
      (specScrolledAwareState.render (sliceComponent outFive)
          (plainComponent inputFooter) 20).2 =
        ["out-2", "out-3", "out-4", "input", "footer"]) :=
  ⟨⟨scrollLayout_viewport_stability outFive ["out-6"] specScrolledState
        (plainComponent outFive) (plainComponent (outFive ++ ["out-6"]))
        (plainComponent inputFooter) 20
        (Or.inl ⟨plainComponent_presents outFive,
          plainComponent_presents (outFive ++ ["out-6"])⟩)
        (by decide) (by decide) (by decide) (by decide) (by decide),
      by decide⟩,
    ⟨scrollLayout_viewport_stability outFive ["out-6"] specScrolledAwareState
        (sliceComponent outFive) (sliceComponent (outFive ++ ["out-6"]))
        (plainComponent inputFooter) 20
        (Or.inr ⟨sliceComponent_presents outFive,
          sliceComponent_presents (outFive ++ ["out-6"])⟩)
        (by decide) (by decide) (by decide) (by decide) (by decide),
      by decide⟩⟩

/-! ## Render idempotence (C9) -/

/-- Repeating a plain enabled frame reproduces the same lines: the
recomputed offset is a fixed point of the clamp. -/
theorem plainEnabledStep_idem (s : ScrollLayout) (L F : List String) (vh : Int) :
    (plainEnabledStep (plainEnabledStep s L F vh).1 L F vh).2.lines =
      (plainEnabledStep s L F vh).2.lines := by
  simp only [plainEnabledStep]
  generalize max 0 (vh - ((visibleFixed F vh).length : Int)) = A
  generalize max 0 ((L.length : Int) - A) = M
  by_cases hf : s.followOutput = true <;>
    simp only [hf, Bool.false_eq_true, if_true, if_false, ite_true, ite_false,
      ge_iff_le, decide_eq_true_eq]
  · simp [le_refl]
  · by_cases hge : M ≤ s.scrollTop ⊓ M
    · have h1 : s.scrollTop ⊓ M = M := by omega
      simp [hge, h1]
    · have h1 : (s.scrollTop ⊓ M) ⊓ M = s.scrollTop ⊓ M := by omega
      simp [hge, h1]

/-- Repeating an aware enabled frame reproduces the same lines. -/
theorem awareEnabledStep_idem (s : ScrollLayout)
    (rv : Int → ViewportInfo → ViewportRenderResult) (ch : Int) (F : List String)
    (w vh : Int) :
    (awareEnabledStep (awareEnabledStep s rv ch F w vh).1 rv ch F w vh).2.lines =
      (awareEnabledStep s rv ch F w vh).2.lines := by
  simp only [awareEnabledStep]
  generalize max 0 (vh - ((visibleFixed F vh).length : Int)) = A
  generalize max 0 (ch - A) = M
  by_cases hf : s.followOutput = true <;>
    simp only [hf, Bool.false_eq_true, if_true, if_false, ite_true, ite_false,
      ge_iff_le, decide_eq_true_eq]
  · simp [le_refl]
  · by_cases hge : M ≤ s.scrollTop ⊓ M
    · have h1 : s.scrollTop ⊓ M = M := by omega
      simp [hge, h1]
    · have h1 : (s.scrollTop ⊓ M) ⊓ M = s.scrollTop ⊓ M := by omega
      simp [hge, h1]

/-- C9: render idempotence.  For every `ScrollLayout` state and
contract-abiding children, calling `render` twice with the same width and
unchanged child content yields identical line sequences, even though the
first call may rewrite `scrollOffset` and `followOutput`. -/
theorem render_idempotent (s : ScrollLayout) (sc fx : Component) (w : Int)
    (hwf : sc.WellFormed) :
    ((s.render sc fx w).1.render sc fx w).2 = (s.render sc fx w).2 := by
  by_cases hvh : 0 < s.lastViewportHeight
  · rw [render_of_pos_lastViewportHeight s sc fx w hvh]
    by_cases hen : s.scrollEnabled = true
    · cases hsc : sc.renderViewport? with
      | none =>
        rw [renderViewport_none_of_enabled s sc fx w _ hsc hen]
        have hvhe : (plainEnabledStep s (sc.render w) (fx.render w)
            (max 0 s.lastViewportHeight)).1.lastViewportHeight =
              max 0 s.lastViewportHeight := by
          simp [plainEnabledStep]
        have hvh2 : 0 < (plainEnabledStep s (sc.render w) (fx.render w)
            (max 0 s.lastViewportHeight)).1.lastViewportHeight := by
          rw [hvhe]; omega
        have hen2 : (plainEnabledStep s (sc.render w) (fx.render w)
            (max 0 s.lastViewportHeight)).1.scrollEnabled = true := by
          simp [plainEnabledStep, hen]
        rw [render_of_pos_lastViewportHeight _ sc fx w hvh2,
          renderViewport_none_of_enabled _ sc fx w _ hsc hen2]
        simp only [hvhe]
        have hmm : max 0 (max 0 s.lastViewportHeight) = max 0 s.lastViewportHeight := by
          omega
        rw [hmm]
        exact plainEnabledStep_idem s (sc.render w) (fx.render w)
          (max 0 s.lastViewportHeight)
      | some rv =>
        obtain ⟨ch, hch, hlen⟩ := hwf.exists_ch rv hsc
        rw [renderViewport_aware_of_enabled s sc fx w _ rv hsc hen ch hch hlen]
        have hvhe : (awareEnabledStep s rv ch (fx.render w) w
            (max 0 s.lastViewportHeight)).1.lastViewportHeight =
              max 0 s.lastViewportHeight := by
          simp [awareEnabledStep]
        have hvh2 : 0 < (awareEnabledStep s rv ch (fx.render w) w
            (max 0 s.lastViewportHeight)).1.lastViewportHeight := by
          rw [hvhe]; omega
        have hen2 : (awareEnabledStep s rv ch (fx.render w) w
            (max 0 s.lastViewportHeight)).1.scrollEnabled = true := by
          simp [awareEnabledStep, hen]
        rw [render_of_pos_lastViewportHeight _ sc fx w hvh2,
          renderViewport_aware_of_enabled _ sc fx w _ rv hsc hen2 ch hch hlen]
        simp only [hvhe]
        have hmm : max 0 (max 0 s.lastViewportHeight) = max 0 s.lastViewportHeight := by
          omega
        rw [hmm]
        exact awareEnabledStep_idem s rv ch (fx.render w) w (max 0 s.lastViewportHeight)
    · have hen' : s.scrollEnabled = false := by
        cases h : s.scrollEnabled
        · rfl
        · exact absurd h hen
      rw [renderViewport_of_disabled s sc fx w _ hen']
      have hvhe : (disabledStep s sc fx w ⟨w, s.lastViewportHeight, 0⟩).1.lastViewportHeight =
          s.lastViewportHeight := by
        simp only [disabledStep]
        omega
      have hvh2 : 0 < (disabledStep s sc fx w ⟨w, s.lastViewportHeight, 0⟩).1.lastViewportHeight := by
        rw [hvhe]; exact hvh
      have hen2 : (disabledStep s sc fx w ⟨w, s.lastViewportHeight, 0⟩).1.scrollEnabled = false := by
        simp [disabledStep, hen']
      rw [render_of_pos_lastViewportHeight _ sc fx w hvh2,
        renderViewport_of_disabled _ sc fx w _ hen2, hvhe]
      simp only [disabledStep]
  · simp only [ScrollLayout.render, hvh, if_false, ite_false]

/-- C9 witness: rendering the spec's scrolled state twice over a
viewport-aware six-line child yields the same lines both times. -/
theorem render_idempotent_witness :
    ((specScrolledState.render (sliceComponent outSix) (plainComponent inputFooter)
          20).1.render (sliceComponent outSix) (plainComponent inputFooter) 20).2 =
      (specScrolledState.render (sliceComponent outSix) (plainComponent inputFooter)
          20).2 :=
  render_idempotent specScrolledState (sliceComponent outSix)
    (plainComponent inputFooter) 20 (sliceComponent_wellFormed outSix)

/-! ## Mouse decoding (C7, C8) -/

/-- C8: `parseMouseEvent` is total — every input yields either a structured
event or no event — and it yields no event exactly on the inputs that are
not well-formed SGR sequences (no regex match, or a code selecting neither
a defined wheel direction nor a defined button). -/
theorem parseMouseEvent_total :
    (∀ s : String, (∃ e, parseMouseEvent s = some e) ∨ parseMouseEvent s = none) ∧
      ∀ s : String, parseMouseEvent s = none ↔ sgrWellFormed s = false := by
  constructor
  · intro s
    cases h : parseMouseEvent s with
    | none => exact Or.inr rfl
    | some e => exact Or.inl ⟨e, rfl⟩
  · intro s
    cases hm : matchSGR s.data with
    | none => simp [parseMouseEvent, sgrWellFormed, hm]
    | some t =>
      obtain ⟨code, x, y, c⟩ := t
      simp only [parseMouseEvent, sgrWellFormed, hm]
      split_ifs <;> simp_all

/-- C8 witness: a truncated escape sequence yields no event. -/
theorem parseMouseEvent_total_witness :
    parseMouseEvent "\x1b[<1;2" = none :=
  (parseMouseEvent_total.2 "\x1b[<1;2").mpr (by decide)

/-! ## Sticky header (C5, C10) -/

/-- C5 counterexample: with ten lines, `viewportTop = 6` and
`viewportHeight = 5`, the viewport top is clamped to
`max(0, 10 - 5) = 5`, so the header is written at index 5 — index 6 keeps
its original content `"line-6"`, and index 5 is changed, contradicting the
claimed output shape (header text at index 6, all else unchanged). -/
theorem sticky_header_example_cex :
    (applyStickyHeader stickyLines 6 ⟨none, none, some 5⟩).get? 6 =
        some (some "line-6") ∧
      (applyStickyHeader stickyLines 6 ⟨none, none, some 5⟩).get? 5 ≠
        (stickyLines.map some).get? 5 := by
  decide

/-- C5 amended: on the ten-line example with `viewportTop = 6`,
`viewportHeight = 5`, the returned array carries the header's text at
index 5 — the clamped viewport top `min(6, max(0, 10 − 5))` — with every
other element unchanged; and with `viewportTop = 0` the output equals the
input. -/
theorem sticky_header_example_amended :
    applyStickyHeader stickyLines 6 ⟨none, none, some 5⟩ =
        (stickyLines.map some).set 5 (some "HEADER") ∧
      applyStickyHeader stickyLines 0 ⟨none, none, some 5⟩ = stickyLines.map some := by
  decide

/-- A detected header index is a valid index of the input. -/
theorem findHeaderLineIndex_lt (lines : List String) (scanLimit : Int) (n : Nat)
    (h : findHeaderLineIndex lines scanLimit = some n) : n < lines.length := by
  unfold findHeaderLineIndex at h
  have hmem := List.mem_of_find?_eq_some h
  rw [List.mem_range] at hmem
  have h2 : (min ((lines.length : Int)) (max 1 scanLimit)).toNat ≤ lines.length := by
    omega
  omega

/-- An in-range JS element read returns an element of the list. -/
theorem jsElem_eq_some (l : List String) (i : Int) (h0 : 0 ≤ i)
    (hlt : i < (l.length : Int)) : ∃ x, jsElem l i = some x ∧ x ∈ l := by
  unfold jsElem
  rw [dif_pos ⟨h0, hlt⟩]
  exact ⟨_, rfl, List.get_mem _ _ _⟩

/-- C10 counterexample: with an explicitly supplied out-of-range
`headerIndex = -1`, the JS read `lines[-1]` is `undefined` (`none`), and
that undefined value — not a line of the input — is written at the clamped
top: the changed element equals no header line of the input. -/
theorem applyStickyHeader_frame_cex :
    applyStickyHeader ["a", "b", "c"] 2 ⟨some (-1), none, none⟩ =
        [some "a", some "b", none] ∧
      (["a", "b", "c"].map some).get? 2 = some (some "c") := by
  decide

/-- C10 amended: for every input, viewport top, and options whose explicit
`headerIndex` (if supplied) is a valid index of the input — the
auto-detected one always is — `applyStickyHeader` returns a list of the
same length that either equals the input or rewrites exactly one position,
the clamped viewport top, to the header line, itself an element of the
input; the input list is never mutated (the embedding is pure).  An
out-of-range explicit `headerIndex` instead writes the undefined value at
that position. -/
theorem applyStickyHeader_frame_amended (lines : List String) (vt : Int)
    (opts : StickyHeaderOptions)
    (hvalid : ∀ h, opts.headerIndex = some h → 0 ≤ h ∧ h < (lines.length : Int)) :
    (applyStickyHeader lines vt opts).length = lines.length ∧
      (applyStickyHeader lines vt opts = lines.map some ∨
        ∃ (hidx : Int) (hline : String),
          stickyHeaderIndex lines opts = some hidx ∧
          jsElem lines hidx = some hline ∧ hline ∈ lines ∧
          applyStickyHeader lines vt opts =
            (lines.map some).set (stickyEffectiveTop lines vt opts).toNat
              (some hline)) := by
  by_cases h0 : lines.length = 0
  · exact ⟨by simp [applyStickyHeader, h0], Or.inl (by simp [applyStickyHeader, h0])⟩
  · by_cases hrange : stickyEffectiveTop lines vt opts ≤ 0 ∨
      stickyEffectiveTop lines vt opts ≥ (lines.length : Int)
    · exact ⟨by simp [applyStickyHeader, h0, hrange],
        Or.inl (by simp [applyStickyHeader, h0, hrange])⟩
    · cases hh : stickyHeaderIndex lines opts with
      | none =>
        exact ⟨by simp [applyStickyHeader, h0, hrange, hh],
          Or.inl (by simp [applyStickyHeader, h0, hrange, hh])⟩
      | some hidx =>
        by_cases hle : stickyEffectiveTop lines vt opts ≤ hidx
        · exact ⟨by simp [applyStickyHeader, h0, hrange, hh, hle],
            Or.inl (by simp [applyStickyHeader, h0, hrange, hh, hle])⟩
        · have hidxrange : 0 ≤ hidx ∧ hidx < (lines.length : Int) := by
            unfold stickyHeaderIndex at hh
            cases hopt : opts.headerIndex with
            | some hexp =>
              rw [hopt] at hh
              simp only [Option.some.injEq] at hh
              exact hh ▸ hvalid hexp hopt
            | none =>
              rw [hopt] at hh
              cases hfind : findHeaderLineIndex lines (opts.scanLimit.getD 20) with
              | none => rw [hfind] at hh; simp at hh
              | some n =>
                rw [hfind] at hh
                simp at hh
                have := findHeaderLineIndex_lt lines (opts.scanLimit.getD 20) n hfind
                omega
          obtain ⟨hline, hjse, hmem⟩ :=
            jsElem_eq_some lines hidx hidxrange.1 hidxrange.2
          refine ⟨?_, Or.inr ⟨hidx, hline, rfl, hjse, hmem, ?_⟩⟩
          · simp [applyStickyHeader, h0, hrange, hh, hle]
          · simp [applyStickyHeader, h0, hrange, hh, hle, hjse]

/-- C10 witness: on the ten-line example with auto-detection, the output
has the input's length. -/
theorem applyStickyHeader_frame_witness :
    (applyStickyHeader stickyLines 6 ⟨none, none, some 5⟩).length =
      stickyLines.length :=
  (applyStickyHeader_frame_amended stickyLines 6 ⟨none, none, some 5⟩
    (fun h hh => by simp at hh)).1

end TinnyPi
